import Mathlib

/-!
Shallow embedding of the constraint-consistent entity generation engine of
the asana-rl-seed-data repository.

Conventions used throughout:
* Python `datetime` values are integers counting microseconds (the native
  resolution of `datetime`); Python `date` values are integers counting days,
  with the epoch placed on a Monday so that `d % 7` agrees with
  `date.weekday()` (Monday = 0 .. Sunday = 6).  Lean's `Int` division and
  modulus are Euclidean, which for the positive divisors used here agree
  with Python's floor division and `%`.
* Every call to the process-wide random source (`random.random()`,
  `random.randint`, `random.choice`, `random.lognormvariate`, ...) is made
  explicit as a parameter of the embedded function; theorem hypotheses
  record exactly the ranges the corresponding draw guarantees (for example
  `random.randint(1, 60)` becomes an `Int` parameter `m` with
  `1 ≤ m ∧ m ≤ 60`).
* `random.choice(pool)` is embedded as indexing the pool at `draw % length`;
  the degenerate empty-pool case (where CPython raises `IndexError`) is
  totalised with a default element and excluded by the hypotheses of the
  theorems that need a pool member.
-/

def usPerSecond : Int := 1000000

def usPerMinute : Int := 60 * usPerSecond

def usPerHour : Int := 60 * usPerMinute

def usPerDay : Int := 24 * usPerHour

/-- Embeds `src/utils/date_helpers.py::random_date_in_range` (arguments are
day numbers): `delta = (end - start).days; if delta <= 0: return start;
return start + timedelta(days=random.randint(0, delta))`.  The
`random.randint(0, delta)` draw is the parameter `draw`. -/
def random_date_in_range (start stop : Int) (draw : Int) : Int :=
  let delta := stop - start
  if delta ≤ 0 then start else start + draw

/-- Embeds `src/utils/date_helpers.py::random_datetime_in_range`: it forms
`start + timedelta(days=random.random() * (end - start).days)` and then
replaces the time of day with a freshly drawn hour, minute and second
(microsecond 0).  `randomFrac` is the `random.random()` draw; the
business-hours weighting only decides whether the hour is drawn from 9..17
or from 0..23, so the drawn hour is passed directly as `hourDraw`.  The
microsecond rounding of `timedelta(days=float)` is absorbed into the exact
rational value, which never changes the resulting calendar day except when
the float lands within half a microsecond of midnight. -/
def random_datetime_in_range (start stop : Int) (randomFrac : ℚ)
    (hourDraw minuteDraw secondDraw : Int) : Int :=
  let deltaDays : Int := (stop - start) / usPerDay
  let shifted : ℚ := (start : ℚ) + randomFrac * (deltaDays : ℚ) * (usPerDay : ℚ)
  let resultDay : Int := Rat.floor (shifted / (usPerDay : ℚ))
  resultDay * usPerDay + hourDraw * usPerHour + minuteDraw * usPerMinute
    + secondDraw * usPerSecond

/-- Embeds `src/utils/date_helpers.py::datetime_after`:
`result = base + timedelta(hours=random.randint(min_hours, max_hours))`, and
if `result > now` the code replaces it by
`now - timedelta(minutes=random.randint(1, 60))`.  `hoursDraw` and
`minutesDraw` are the two `randint` draws; `now` is `datetime.now()` at the
moment of the call. -/
def datetime_after (base : Int) (hoursDraw : Int) (now : Int) (minutesDraw : Int) : Int :=
  let result := base + hoursDraw * usPerHour
  if result > now then now - minutesDraw * usPerMinute else result

/-- Embeds `src/utils/date_helpers.py::avoid_weekends` on day numbers:
with probability 0.85 (`roll` is the outcome of `random.random() < probability`)
a Saturday is moved to Monday (+2) and a Sunday to Monday (+1). -/
def avoid_weekends (d : Int) (roll : Bool) : Int :=
  if roll then
    if d % 7 = 5 then d + 2
    else if d % 7 = 6 then d + 1
    else d
  else d

/-- Embeds `src/generators/tasks.py::_task_created_at`:
`dt = start + timedelta(seconds=random.random() * (end - start).total_seconds())`,
then with probability `1 - day_weights[dt.weekday()]` the code shifts `dt` by
`random.choice([-2, -1, 0, 1])` days (`shiftRoll` is the outcome of the
weight comparison, `shiftDays` the chosen shift), and finally clamps with
`max(start, min(end, dt))`. -/
def task_created_at (start stop : Int) (frac : ℚ) (shiftRoll : Bool)
    (shiftDays : Int) : Int :=
  let dt0 : Int := start + Rat.floor (frac * ((stop - start : Int) : ℚ))
  let dt1 : Int := if shiftRoll then dt0 + shiftDays * usPerDay else dt0
  max start (min stop dt1)

/-- Embeds `src/generators/tasks.py::_completion_state` for the case where
the completion roll already happened: `latencyUs` is
`timedelta(days=min(14, random.lognormvariate(1.1, 0.8)))` in microseconds
(always positive), `hoursDraw` is the `random.randint(1, 24)` fallback draw.
Returns `(is_completed, completed_at, completed_by)`. -/
def completion_state (createdAt currentTime : Int) (completedRoll : Bool)
    (latencyUs : Int) (hoursDraw : Int) (assignee : Option Nat) (creator : Nat) :
    Bool × Option Int × Option Nat :=
  if !completedRoll then (false, none, none)
  else
    let c0 := createdAt + latencyUs
    let c1 := min c0 currentTime
    let c2 := if c1 ≤ createdAt then createdAt + hoursDraw * usPerHour else c1
    (true, some c2, some (assignee.getD creator))

/-- Embeds `src/generators/tasks.py::_updated_at`: a completed task reuses
`completed_at` (a `datetime` is always truthy), otherwise the task is
updated `random.random() ** 2 * min(age_days, 30)` days after creation,
clamped to `current_time`; that nonnegative offset is `ageOffsetUs`. -/
def updated_at (createdAt : Int) (completedAt : Option Int) (currentTime : Int)
    (ageOffsetUs : Int) : Int :=
  match completedAt with
  | some c => c
  | none => min currentTime (createdAt + ageOffsetUs)

/-- Embeds `src/generators/tasks.py::_due_date` on day numbers.  `roll` is
the `random.random()` draw selecting the branch, `daysDraw` the branch's
`random.randint` draw, `weekendRoll` the draw inside `avoid_weekends`.
Every non-`None` branch ends with `return min(due, project_due)`. -/
def due_date (createdDay projectDueDay : Int) (roll : ℚ) (daysDraw : Int)
    (weekendRoll : Bool) : Option Int :=
  if roll < 10/100 then none
  else if roll < 15/100 then
    some (min (createdDay - daysDraw) projectDueDay)
  else if roll < 40/100 then
    some (min (avoid_weekends (createdDay + daysDraw) weekendRoll) projectDueDay)
  else if roll < 80/100 then
    some (min (avoid_weekends (createdDay + daysDraw) weekendRoll) projectDueDay)
  else
    some (min (avoid_weekends (createdDay + daysDraw) weekendRoll) projectDueDay)

/-- Embeds the `updated_at` computation of
`src/generators/projects.py::generate_projects`:
`latest_update = min(datetime.combine(due_date, datetime.max.time()), current_time)`;
if it exceeds `created_at` a uniform point of the interval is drawn
(`frac` is the `random.random()` draw), otherwise `updated_at = created_at`.
`dueEodUs` is the combined end-of-day instant of the due date. -/
def project_updated_at (createdAt dueEodUs currentTime : Int) (frac : ℚ) : Int :=
  let latestUpdate := min dueEodUs currentTime
  if latestUpdate > createdAt then
    createdAt + Rat.floor (frac * ((latestUpdate - createdAt : Int) : ℚ))
  else createdAt

/-- The per-project record fields relevant to the temporal invariants, as
assembled by `src/generators/projects.py::generate_projects`. -/
structure ProjectRec where
  createdAt : Int
  updatedAt : Int
  startDay : Int
  dueDay : Int
deriving DecidableEq, Repr

/-- Embeds the record construction of one project in
`src/generators/projects.py::generate_projects`: `start_date = created_at.date()`
and `updated_at` as computed by `project_updated_at`.  The function is total:
a degenerate update window never aborts the record. -/
def generate_project_record (createdAt dueDay dueEodUs currentTime : Int)
    (frac : ℚ) : ProjectRec :=
  { createdAt := createdAt
    updatedAt := project_updated_at createdAt dueEodUs currentTime frac
    startDay := createdAt / usPerDay
    dueDay := dueDay }

/-- The fixed per-organization department split of
`src/generators/departments.py` (Product Engineering 0.40, Marketing 0.15,
Sales/HR/Customer Success 0.35, Upper Management 0.10), as exact rationals.
For the organization sizes relevant here the IEEE-754 products computed by
CPython have the same integer part as these exact values. -/
def DEPARTMENT_USER_PERCENTAGES : List ℚ := [40/100, 15/100, 35/100, 10/100]

/-- Embeds `dept_user_count = int(org_user_count * dept_pct)` from
`src/generators/users.py::generate_users` (`int()` truncation; the product
is nonnegative, so truncation is the floor). -/
def dept_user_count (orgUserCount : Nat) (pct : ℚ) : Nat :=
  (Rat.floor ((orgUserCount : ℚ) * pct)).toNat

/-- Embeds the even split of `src/generators/users.py::generate_users`:
`users_per_org = num_users // len(organizations)` plus one for the first
`num_users % len(organizations)` organizations. -/
def org_user_count (numUsers numOrgs orgIdx : Nat) : Nat :=
  numUsers / numOrgs + (if orgIdx < numUsers % numOrgs then 1 else 0)

/-- Number of users actually generated inside one organization: the sum of
the truncated per-department counts. -/
def users_generated_in_org (orgUserCount : Nat) : Nat :=
  (DEPARTMENT_USER_PERCENTAGES.map (dept_user_count orgUserCount)).sum

/-- Number of users generated by a whole run of
`src/generators/users.py::generate_users`. -/
def total_users_generated (numUsers numOrgs : Nat) : Nat :=
  ((List.range numOrgs).map
    (fun i => users_generated_in_org (org_user_count numUsers numOrgs i))).sum

/-- Embeds `total_tasks = len(users) * tasks_per_user` from
`src/generators/tasks.py::generate_tasks`: the task loop runs exactly
`len(users) * tasks_per_user` times and appends one task per iteration. -/
def total_tasks_generated (numUsers numOrgs tasksPerUser : Nat) : Nat :=
  total_users_generated numUsers numOrgs * tasksPerUser

/-- Python truthiness of the `random_seed: Optional[int]` parameter, as used
by every `if random_seed:` guard in the generators: `None` and `0` are
falsy, every other integer is truthy. -/
def py_truthy_seed : Option Int → Bool
  | none => false
  | some s => s != 0

/-- Abstract state of the process-wide `random` module: whether
`random.seed` has been called on it and with which value. -/
structure RngState where
  seeded : Bool
  seedValue : Int
deriving DecidableEq, Repr

/-- Embeds one `if random_seed: random.seed(random_seed)` site. -/
def maybe_seed (randomSeed : Option Int) (g : RngState) : RngState :=
  if py_truthy_seed randomSeed then ⟨true, randomSeed.getD 0⟩ else g

/-- The states of the shared random source after each of the eight seeding
sites of a full run, in pipeline order:
`MethodologyBasedGenerator.__init__`, `generate_organizations`,
`generate_departments`, `generate_users`, `generate_teams`,
`generate_team_memberships`, `generate_projects`, `generate_tasks`.
Every one of those sites is the same truthiness-guarded call. -/
def seeding_sites_trace (randomSeed : Option Int) (g0 : RngState) : List RngState :=
  let g1 := maybe_seed randomSeed g0
  let g2 := maybe_seed randomSeed g1
  let g3 := maybe_seed randomSeed g2
  let g4 := maybe_seed randomSeed g3
  let g5 := maybe_seed randomSeed g4
  let g6 := maybe_seed randomSeed g5
  let g7 := maybe_seed randomSeed g6
  let g8 := maybe_seed randomSeed g7
  [g1, g2, g3, g4, g5, g6, g7, g8]

/-- Embeds `generate_uuid` (`str(uuid.uuid4())`, used for every entity id in
`src/generators/*.py`): `uuid.uuid4()` reads 16 bytes of OS entropy
(`os.urandom`), which the `random.seed` calls of the generators do not
influence.  The OS entropy consumed by the k-th uuid of a run is modelled
as `entropy k`. -/
def generate_uuid (entropy : Nat → Nat) (k : Nat) : Nat :=
  entropy k

/-- The list of organization ids produced by
`src/generators/organizations.py::generate_organizations`: one fresh
`generate_uuid` per organization.  The seed parameter only reaches the
seeded random source, never the uuid entropy, so it does not appear in any
id. -/
def run_organization_ids (randomSeed : Option Int) (entropy : Nat → Nat)
    (numOrgs : Nat) : List Nat :=
  let _g := maybe_seed randomSeed ⟨false, 0⟩
  (List.range numOrgs).map (fun k => generate_uuid entropy k)

/-- A user as seen by `src/generators/team_memberships.py`: its id and its
parsed `created_at`. -/
structure MUser where
  uid : Nat
  createdAt : Int
deriving DecidableEq, Repr

/-- A team as seen by `src/generators/team_memberships.py`: its id and its
parsed `created_at`. -/
structure MTeam where
  tid : Nat
  createdAt : Int
deriving DecidableEq, Repr

/-- One department's slice of the `users_by_dept` / `teams_by_dept`
groupings built by `generate_users`, `generate_teams` and the start of
`generate_team_memberships`. -/
structure DeptGroup where
  users : List MUser
  teams : List MTeam
deriving DecidableEq, Repr

/-- The random draws consumed for one user inside
`generate_team_memberships`: the primary `random.choice` index, the two
`randint` draws inside `datetime_after(min_hours=1, max_hours=720)`, the
`random.random() < 0.15` secondary roll, and the corresponding draws for
the secondary membership (`min_hours=24`). -/
structure MDraw where
  primaryIdx : Nat
  primaryHours : Int
  primaryMinutes : Int
  secondaryRoll : Bool
  secondaryIdx : Nat
  secondaryHours : Int
  secondaryMinutes : Int
deriving DecidableEq, Repr

/-- The fields of one emitted team-membership record that the invariants
talk about. -/
structure MembershipRec where
  userId : Nat
  teamId : Nat
  isPrimaryTeam : Bool
  joinedAt : Int
deriving DecidableEq, Repr

/-- Embeds `random.choice(team_ids)` over a team pool: an arbitrary index
draw reduced modulo the pool size.  The empty pool (IndexError in CPython)
is totalised with a dummy team. -/
def choice_team (teams : List MTeam) (idx : Nat) : MTeam :=
  teams.getD (idx % teams.length) ⟨0, 0⟩

/-- Embeds the body of the per-user loop of
`src/generators/team_memberships.py::generate_team_memberships`: one
primary membership (`is_primary_team=True`, `joined_at =
datetime_after(max(user_created, team_created), 1, 720)`), plus, when the
15% roll succeeds and the department has more than one team, one secondary
membership (`is_primary_team=False`) in a team chosen from the non-primary
pool with `joined_at = datetime_after(max(user_created, secondary_created), 24, 720)`. -/
def memberships_for_user (teams : List MTeam) (now : Int) (usr : MUser)
    (d : MDraw) : List MembershipRec :=
  let primary := choice_team teams d.primaryIdx
  let earliest := max usr.createdAt primary.createdAt
  let joinedAt := datetime_after earliest d.primaryHours now d.primaryMinutes
  let primaryMembership : MembershipRec := ⟨usr.uid, primary.tid, true, joinedAt⟩
  if d.secondaryRoll ∧ 1 < teams.length then
    let pool := teams.filter (fun t => t.tid != primary.tid)
    let secondary := choice_team pool d.secondaryIdx
    let earliestSecondary := max usr.createdAt secondary.createdAt
    let joinedSecondary :=
      datetime_after earliestSecondary d.secondaryHours now d.secondaryMinutes
    [primaryMembership, ⟨usr.uid, secondary.tid, false, joinedSecondary⟩]
  else [primaryMembership]

/-- Embeds the per-department part of `generate_team_memberships`: a
department whose team list is empty is skipped entirely
(`if not team_ids: continue`), otherwise each of its users is processed in
order. -/
def memberships_for_dept (g : DeptGroup) (draw : Nat → MDraw) (now : Int) :
    List MembershipRec :=
  if g.teams.isEmpty then []
  else (g.users.map (fun usr => memberships_for_user g.teams now usr (draw usr.uid))).flatten

/-- Embeds `src/generators/team_memberships.py::generate_team_memberships`:
the concatenation of every department's memberships, in iteration order. -/
def generate_team_memberships (gs : List DeptGroup) (draw : Nat → MDraw)
    (now : Int) : List MembershipRec :=
  (gs.map (fun g => memberships_for_dept g draw now)).flatten

/-- Number of memberships for user `u` flagged `is_primary_team` in a
batch, the quantity checked by
`src/utils/validators.py::ConsistencyValidator.validate_one_primary_team`. -/
def user_primary_count (u : Nat) (ms : List MembershipRec) : Nat :=
  ms.countP (fun m => m.userId == u && m.isPrimaryTeam)

/-- Number of times user id `u` occurs across the per-department user lists
(`users_by_dept`). -/
def user_occurrences (u : Nat) (gs : List DeptGroup) : Nat :=
  (gs.map (fun g => g.users.countP (fun usr => usr.uid == u))).sum

/-- The mutable state threaded through the depth-first search of
`src/utils/validators.py::detect_circular_dependencies`: the `visited` set,
the recursion stack, and the accumulated cycles.  The Python sets are kept
as lists; membership is all the algorithm uses. -/
structure DfsState where
  visited : List String
  recStack : List String
  cycles : List (List String)
deriving DecidableEq, Repr

/-- One pending call of the recursive `dfs` helper: either entering a node
(`visit`, Python `dfs(node, path)`) or iterating over the remainder of a
node's neighbor list (`scan`, the `for neighbor in graph.get(node, [])`
loop). -/
inductive DfsCall where
  | visit (node : String) (path : List String)
  | scan (node : String) (neighbors : List String) (path : List String)
deriving DecidableEq, Repr

/-- `graph.get(node, [])` on the insertion-ordered adjacency list. -/
def neighbors_of (graph : List (String × List String)) (node : String) :
    List String :=
  ((graph.find? (fun p => p.1 == node)).map Prod.snd).getD []

/-- Embeds the recursive `dfs` of `detect_circular_dependencies`.  The
`fuel` argument only bounds the recursion for Lean's termination checker;
`detect_circular_dependencies` supplies more fuel than the algorithm can
consume, so the embedded runs never hit 0.  Returns the updated state, the
(mutated-in-place) `path`, and the boolean result of `dfs`.  Mirrored
details: `visited.add` / `rec_stack.add` / `path.append` on entry; on a
neighbor not yet visited the recursion propagates `True` immediately
(without popping `path` or `rec_stack`); on a neighbor on the recursion
stack the slice `path[path.index(neighbor):] + [neighbor]` is appended to
`cycles` and `True` is returned; after an exhausted neighbor loop `path` is
popped, the node is removed from the recursion stack and `False` is
returned. -/
def dfs_run (graph : List (String × List String)) :
    Nat → DfsCall → DfsState → DfsState × List String × Bool
  | 0, DfsCall.visit _ path, st => (st, path, false)
  | 0, DfsCall.scan _ _ path, st => (st, path, false)
  | fuel+1, DfsCall.visit node path, st =>
      let st1 : DfsState := ⟨node :: st.visited, node :: st.recStack, st.cycles⟩
      let path1 := path ++ [node]
      match dfs_run graph fuel (DfsCall.scan node (neighbors_of graph node) path1) st1 with
      | (st2, path2, true) => (st2, path2, true)
      | (st2, path2, false) =>
          (⟨st2.visited, st2.recStack.erase node, st2.cycles⟩, path2.dropLast, false)
  | fuel+1, DfsCall.scan node neighbors path, st =>
      match neighbors with
      | [] => (st, path, false)
      | n :: rest =>
          if n ∈ st.visited then
            if n ∈ st.recStack then
              let i := path.indexOf n
              (⟨st.visited, st.recStack, st.cycles ++ [path.drop i ++ [n]]⟩, path, true)
            else dfs_run graph fuel (DfsCall.scan node rest path) st
          else
            match dfs_run graph fuel (DfsCall.visit n path) st with
            | (st2, path2, true) => (st2, path2, true)
            | (st2, path2, false) => dfs_run graph fuel (DfsCall.scan node rest path2) st2

/-- Builds the adjacency list of `detect_circular_dependencies` with the
insertion order of a Python dict: a new blocking node is appended at the
end, a repeated one extends its existing neighbor list. -/
def build_graph (deps : List (String × String)) : List (String × List String) :=
  deps.foldl
    (fun g e =>
      if g.any (fun p => p.1 == e.1) then
        g.map (fun p => if p.1 == e.1 then (p.1, p.2 ++ [e.2]) else p)
      else g ++ [(e.1, [e.2])])
    []

/-- Embeds `src/utils/validators.py::detect_circular_dependencies`: build
the adjacency list, run `dfs(node, [])` from every not-yet-visited key in
insertion order (sharing `visited`, `rec_stack` and `cycles` across roots),
and return the accumulated cycles. -/
def detect_circular_dependencies (deps : List (String × String)) :
    List (List String) :=
  let graph := build_graph deps
  let fuel := (deps.length + graph.length + 2) * (deps.length + graph.length + 2)
  let final := graph.foldl
    (fun st p =>
      if p.1 ∈ st.visited then st
      else (dfs_run graph fuel (DfsCall.visit p.1 []) st).1)
    ⟨[], [], []⟩
  final.cycles

/-! Helper lemmas for the primary-team cardinality argument. -/

theorem user_primary_count_append (u : Nat) (l1 l2 : List MembershipRec) :
    user_primary_count u (l1 ++ l2)
      = user_primary_count u l1 + user_primary_count u l2 :=
  List.countP_append _ _ _

theorem user_primary_count_for_user (teams : List MTeam) (now : Int)
    (usr : MUser) (d : MDraw) (u : Nat) :
    user_primary_count u (memberships_for_user teams now usr d)
      = if usr.uid = u then 1 else 0 := by
  unfold user_primary_count memberships_for_user
  by_cases h : d.secondaryRoll ∧ 1 < teams.length
  · simp only [if_pos h, List.countP_cons, List.countP_nil]
    by_cases hu : usr.uid = u <;> simp [hu]
  · simp only [if_neg h, List.countP_cons, List.countP_nil]
    by_cases hu : usr.uid = u <;> simp [hu]

theorem user_primary_count_flatten (teams : List MTeam) (draw : Nat → MDraw)
    (now : Int) (us : List MUser) (u : Nat) :
    user_primary_count u
        ((us.map (fun usr => memberships_for_user teams now usr (draw usr.uid))).flatten)
      = us.countP (fun usr => usr.uid == u) := by
  induction us with
  | nil => rfl
  | cons a l ih =>
    rw [List.map_cons, List.flatten_cons, user_primary_count_append,
      user_primary_count_for_user, ih, List.countP_cons]
    by_cases hu : a.uid = u
    · simp [hu]
      omega
    · simp [hu]

theorem user_primary_count_dept (g : DeptGroup) (draw : Nat → MDraw) (now : Int)
    (u : Nat) (h : g.users ≠ [] → g.teams ≠ []) :
    user_primary_count u (memberships_for_dept g draw now)
      = g.users.countP (fun usr => usr.uid == u) := by
  unfold memberships_for_dept
  by_cases ht : g.teams.isEmpty
  · have hu : g.users = [] := by
      by_contra hne
      exact (List.isEmpty_iff.mp ht ▸ h hne) rfl
    simp [ht, hu, user_primary_count]
  · rw [if_neg ht]
    exact user_primary_count_flatten g.teams draw now g.users u

theorem user_primary_count_run (gs : List DeptGroup) (draw : Nat → MDraw)
    (now : Int) (u : Nat) (h : ∀ g ∈ gs, g.users ≠ [] → g.teams ≠ []) :
    user_primary_count u (generate_team_memberships gs draw now)
      = user_occurrences u gs := by
  induction gs with
  | nil => rfl
  | cons g l ih =>
    unfold generate_team_memberships user_occurrences
    rw [List.map_cons, List.flatten_cons, user_primary_count_append,
      user_primary_count_dept g draw now u (h g (List.mem_cons_self g l)),
      List.map_cons, List.sum_cons]
    have ihl := ih (fun g hg => h g (List.mem_cons_of_mem _ hg))
    unfold generate_team_memberships user_occurrences at ihl
    rw [ihl]

/-- Claim C2: every generated user has exactly one membership with
`is_primary_team = true` in the collection produced by
`generate_team_memberships`.  The hypotheses record what the pipeline
guarantees for generated users: the user id occurs exactly once across the
`users_by_dept` groups, and every department holding at least one user has
at least one team (`generate_teams` creates `max(1, ...)` teams for every
department with users). -/
theorem one_primary_team_per_user (gs : List DeptGroup) (draw : Nat → MDraw)
    (now : Int) (u : Nat) (hteams : ∀ g ∈ gs, g.users ≠ [] → g.teams ≠ [])
    (hocc : user_occurrences u gs = 1) :
    user_primary_count u (generate_team_memberships gs draw now) = 1 := by
  rw [user_primary_count_run gs draw now u hteams, hocc]

/-- Witness for C2 at a concrete input: one department with one user (id 1)
and two teams; the user occurs once, so it receives exactly one primary
membership. -/
theorem one_primary_team_per_user_witness :
    user_occurrences 1 [⟨[⟨1, 0⟩], [⟨10, 0⟩, ⟨11, 5⟩]⟩] = 1 ∧
    user_primary_count 1
        (generate_team_memberships [⟨[⟨1, 0⟩], [⟨10, 0⟩, ⟨11, 5⟩]⟩]
          (fun _ => ⟨0, 1, 30, true, 0, 24, 30⟩) usPerDay) = 1 := by
  refine ⟨by decide, one_primary_team_per_user _ _ _ _ ?_ (by decide)⟩
  intro g hg
  rw [List.mem_singleton] at hg
  subst hg
  intro _
  simp

/-- Claim C3: with the configuration and the seed fixed (seed 42 shown
here), two runs still differ, because every entity id is produced by
`generate_uuid` = `str(uuid.uuid4())`, which draws from OS entropy that
`random.seed` does not control: runs over distinct entropy streams give
distinct organization id collections. -/
theorem organization_ids_differ_across_runs_with_same_seed :
    run_organization_ids (some 42) (fun _ => 0) 1
      ≠ run_organization_ids (some 42) (fun _ => 1) 1 := by
  decide

/-- Claim C4: a generated team membership whose anchor
`max(user.created_at, team.created_at)` lies inside the final hour before
the wall clock can receive `joined_at` strictly before the anchor: here the
user was created 30 minutes before `now` (team at time 0), the 1-hour draw
overshoots `now`, and `datetime_after`'s clamp lands at `now - 45 min`,
which is 15 minutes before `user.created_at`. -/
theorem membership_joined_before_user_created :
    generate_team_memberships
        [⟨[⟨1, 100 * usPerHour - 30 * usPerMinute⟩], [⟨10, 0⟩]⟩]
        (fun _ => ⟨0, 1, 45, false, 0, 24, 30⟩) (100 * usPerHour)
      = [⟨1, 10, true, 100 * usPerHour - 45 * usPerMinute⟩] ∧
    100 * usPerHour - 45 * usPerMinute
      < max (100 * usPerHour - 30 * usPerMinute) 0 := by
  decide

/-- Claim C5 counterexample: `random_datetime_in_range` can exit its bounds
even on a well-ordered interval.  With `start` = day 0 12:00:00,
`end` = day 1 12:00:00, `random.random() = 0` and the drawn time of day
00:00:00, the result is day 0 00:00:00, strictly below `start`. -/
theorem random_datetime_in_range_escapes_bounds :
    random_datetime_in_range (43200 * usPerSecond) (129600 * usPerSecond) 0 0 0 0 = 0 ∧
    (0 : Int) < 43200 * usPerSecond ∧
    43200 * usPerSecond ≤ 129600 * usPerSecond := by
  refine ⟨?_, by decide, by decide⟩
  norm_num [random_datetime_in_range, Rat.floor, usPerDay, usPerHour, usPerMinute,
    usPerSecond]

/-- Claim C5 (amended): the date-valued range picker stays within
`[lower_bound, upper_bound]` whenever the bounds are ordered, and on an
inverted range it returns `lower_bound` instead of failing; no `RangeError`
exists anywhere in the code. -/
theorem random_date_in_range_bounds (start stop draw : Int) :
    (stop < start → random_date_in_range start stop draw = start) ∧
    (start ≤ stop → 0 ≤ draw → draw ≤ stop - start →
      start ≤ random_date_in_range start stop draw ∧
        random_date_in_range start stop draw ≤ stop) := by
  simp only [random_date_in_range]
  constructor
  · intro h
    rw [if_pos (by omega)]
  · intro h1 h2 h3
    split_ifs <;> omega

/-- Witness for C5: the inverted range (7, 3) returns 7; the range (0, 5)
with draw 3 stays within bounds. -/
theorem random_date_in_range_bounds_witness :
    random_date_in_range 7 3 9 = 7 ∧
    (0 : Int) ≤ random_date_in_range 0 5 3 ∧ random_date_in_range 0 5 3 ≤ 5 :=
  ⟨(random_date_in_range_bounds 7 3 9).1 (by decide),
    (random_date_in_range_bounds 0 5 3).2 (by decide) (by decide) (by decide)⟩

/-- Claim C6: on the edge set `{(A,B), (B,C), (C,A)}` the cycle detector
returns exactly one cycle, namely `[A, B, C, A]`: it contains A, B and C
and closes back on its starting identifier. -/
theorem detect_circular_dependencies_triangle :
    (detect_circular_dependencies [("A", "B"), ("B", "C"), ("C", "A")]).length = 1 ∧
    detect_circular_dependencies [("A", "B"), ("B", "C"), ("C", "A")]
      = [["A", "B", "C", "A"]] := by
  decide

/-- Claim C1: a task created at the generator's `current_time` (reachable:
the weekday shift of `_task_created_at` pushes the draw past `end` and the
final clamp lands exactly on `end = current_time`) that rolls completed
gets `completed_at = created_at + randint(1, 24) hours`, which lies strictly
after `current_time`; `created_at < completed_at` and
`updated_at = completed_at` do hold. -/
theorem completed_task_exceeds_now_at_boundary :
    task_created_at 0 (10 * usPerDay) (9 / 10) true 1 = 10 * usPerDay ∧
    completion_state (10 * usPerDay) (10 * usPerDay) true (2 * usPerDay) 5 none 3
      = (true, some (10 * usPerDay + 5 * usPerHour), some 3) ∧
    updated_at (10 * usPerDay) (some (10 * usPerDay + 5 * usPerHour)) (10 * usPerDay) 0
      = 10 * usPerDay + 5 * usPerHour ∧
    10 * usPerDay < 10 * usPerDay + 5 * usPerHour := by
  refine ⟨?_, by decide, by decide, by decide⟩
  norm_num [task_created_at, Rat.floor, usPerDay, usPerHour, usPerMinute, usPerSecond]

/-- Claim C7 counterexample: with 2 organizations, 50 users and 5 tasks per
user, the run does not produce 250 tasks: `int(org_user_count * dept_pct)`
truncation generates only 23 users per organization (10 + 3 + 8 + 2), so
`len(users) * tasks_per_user = 46 * 5 = 230`. -/
theorem scenario_task_count_is_not_250 :
    total_tasks_generated 50 2 5 ≠ 250 := by
  norm_num [total_tasks_generated, total_users_generated, users_generated_in_org,
    org_user_count, dept_user_count, DEPARTMENT_USER_PERCENTAGES, Rat.floor]
  decide

/-- Claim C7 (amended): the run generates one batch of `tasks_per_user`
tasks per actually generated user; with 2 organizations and a requested 50
users the department-percentage truncation yields 46 users and therefore
exactly 230 tasks. -/
theorem scenario_task_count_is_230 :
    total_users_generated 50 2 = 46 ∧ total_tasks_generated 50 2 5 = 230 := by
  constructor <;>
    (norm_num [total_tasks_generated, total_users_generated, users_generated_in_org,
      org_user_count, dept_user_count, DEPARTMENT_USER_PERCENTAGES, Rat.floor]
     decide)

/-- Claim C8: when the project's update window is degenerate (the later of
the due-date end of day and the current time does not exceed `created_at`),
`generate_projects` still emits the record, with `updated_at = created_at`
instead of failing. -/
theorem degenerate_project_window_keeps_created_at (createdAt dueDay dueEodUs
    currentTime : Int) (frac : ℚ)
    (h : max dueEodUs currentTime ≤ createdAt) :
    (generate_project_record createdAt dueDay dueEodUs currentTime frac).updatedAt
      = createdAt := by
  have h1 : min dueEodUs currentTime ≤ createdAt := le_trans min_le_max h
  unfold generate_project_record project_updated_at
  simp only [gt_iff_lt]
  rw [if_neg (not_lt.mpr h1)]

/-- Witness for C8: a project whose due-date end of day and current time
both sit at `created_at` keeps `updated_at = created_at`. -/
theorem degenerate_project_window_witness :
    max (80 : Int) 80 ≤ 80 ∧
    (generate_project_record 80 5 80 80 0).updatedAt = 80 :=
  ⟨by decide, degenerate_project_window_keeps_created_at 80 5 80 80 0 (by decide)⟩

/-- Claim C9: every non-`None` branch of `_due_date` returns
`min(due, project_due)`, so a task's due date never exceeds the owning
project's due date. -/
theorem task_due_date_le_project_due (createdDay projectDueDay : Int) (roll : ℚ)
    (daysDraw : Int) (weekendRoll : Bool) (d : Int)
    (h : due_date createdDay projectDueDay roll daysDraw weekendRoll = some d) :
    d ≤ projectDueDay := by
  unfold due_date at h
  split_ifs at h <;> simp only [Option.some.injEq, reduceCtorEq] at h <;>
    first
      | exact absurd h (by simp)
      | (subst h; exact min_le_right _ _)

/-- Witness for C9: the roll 1/2 selects the 8-30 day branch; the drawn due
date (moved off the weekend) exceeds the project due date and is clamped to
it. -/
theorem task_due_date_le_project_due_witness :
    due_date 100 90 (1 / 2) 10 true = some 90 ∧ (90 : Int) ≤ 90 := by
  have h : due_date 100 90 (1 / 2) 10 true = some 90 := by
    norm_num [due_date, avoid_weekends]
  exact ⟨h, task_due_date_le_project_due 100 90 (1 / 2) 10 true 90 h⟩

/-- Claim C10: passing `random_seed = 0` leaves every one of the eight
truthiness-guarded seeding sites inert (a run indistinguishable from an
unseeded one), while any nonzero seed re-seeds the shared random source at
the entry of every stage. -/
theorem seed_zero_behaves_as_unseeded :
    (∀ g0 : RngState,
      seeding_sites_trace (some 0) g0 = seeding_sites_trace none g0 ∧
        seeding_sites_trace (some 0) g0 = List.replicate 8 g0) ∧
    (∀ s : Int, s ≠ 0 → ∀ g0 : RngState,
      seeding_sites_trace (some s) g0 = List.replicate 8 ⟨true, s⟩) := by
  constructor
  · intro g0
    constructor <;> rfl
  · intro s hs g0
    simp [seeding_sites_trace, maybe_seed, py_truthy_seed, bne_iff_ne, hs,
      List.replicate]

/-- Witness for C10: seed 42 re-seeds every site; seed 0 leaves the initial
state everywhere. -/
theorem seed_zero_behaves_as_unseeded_witness :
    seeding_sites_trace (some 0) ⟨false, 7⟩ = List.replicate 8 ⟨false, 7⟩ ∧
    seeding_sites_trace (some 42) ⟨false, 7⟩ = List.replicate 8 ⟨true, 42⟩ :=
  ⟨(seed_zero_behaves_as_unseeded.1 ⟨false, 7⟩).2,
    seed_zero_behaves_as_unseeded.2 42 (by decide) ⟨false, 7⟩⟩
